import Mathlib

/-!
Shallow embedding of the `giveup` crate (files `src/giveup.rs`, `src/hint.rs`,
`src/lib.rs`).

The crate formats error values for end users.  An error value (Rust's
`std::error::Error`) has a one-line `Display` description and an optional
`source` (its cause), which itself is an error value.  We embed such error
values as the inductive type `Err`.  Strings are embedded as Lean `String`s;
the `colored` crate's `bold` styling is modelled as the identity on text
(plain, uncolored output).  Process termination and writes to stderr are
modelled by the `GiveupOutcome` type: `giveup` either returns the success
value or exits with the text written to stderr and the exit code.
-/

/-- An error value: a `Display` description plus an optional `source`
(cause), which is itself an error value.  This embeds the
`std::error::Error + Display` interface that `giveup`'s formatting walks. -/
inductive Err where
  | base (desc : String)
  | withSource (desc : String) (src : Err)
deriving DecidableEq

/-- The `Display` text of an error value (its description line). -/
def Err.desc : Err → String
  | .base d => d
  | .withSource d _ => d

/-- `Error::source`: the optional cause of an error value. -/
def Err.source : Err → Option Err
  | .base _ => none
  | .withSource _ s => some s

/-- The `"Caused by: ..."` text produced by the `while let Some(cause)`
loop of `format_err_msg` (giveup.rs), starting at a cause `c`: one line
`"Caused by: {c}\n"` for `c` and each further error reached by repeatedly
following `source`. -/
def causedByFrom : Err → String
  | .base d => "Caused by: " ++ d ++ "\n"
  | .withSource d s => "Caused by: " ++ d ++ "\n" ++ causedByFrom s

/-- The loop of `format_err_msg` run on `current = err.source()`:
empty when there is no cause, otherwise the `Caused by:` lines from the
first cause onwards. -/
def optCausedBy : Option Err → String
  | none => ""
  | some c => causedByFrom c

/-- The free function `format_err_msg` of giveup.rs: the error's own
`Display` line `"{err}\n"`, followed by one `"Caused by: {cause}\n"` line
per element of the source chain. -/
def format_err_msg (err : Err) : String :=
  err.desc ++ "\n" ++ optCausedBy err.source

/-- The cause chain of an error: the errors visited by repeatedly following
`source`, nearest cause first (the error itself is not included). -/
def Err.causeChain : Err → List Err
  | .base _ => []
  | .withSource _ s => s :: s.causeChain

/-- `Hint` (hint.rs): hint text plus an optional example.  The Rust field
`example` is spelled `example_` here because `example` is a Lean keyword. -/
structure Hint where
  hint : String
  example_ : Option String
deriving DecidableEq

/-- `Display for Hint` (hint.rs): `"{hint}: \x60{example}\x60"` when an
example is present, else the bare hint text. -/
def Hint.display (h : Hint) : String :=
  match h.example_ with
  | some ex => h.hint ++ ": `" ++ ex ++ "`"
  | none => h.hint

/-- `HintedError` (hint.rs): a wrapped error value together with a hint. -/
structure HintedError where
  e : Err
  hint : Hint
deriving DecidableEq

/-- `HintedError::from_hint` (hint.rs): wrap an error with a hint whose
example is unset. -/
def HintedError.from_hint (e : Err) (hint : String) : HintedError :=
  ⟨e, ⟨hint, none⟩⟩

/-- `Error for HintedError`'s `source` (hint.rs): delegates to the wrapped
error's `source`, i.e. returns `self.e.source()`. -/
def HintedError.source (he : HintedError) : Option Err :=
  he.e.source

/-- `Display for HintedError` (hint.rs): `"{e}\n{hint}"`. -/
def HintedError.display (he : HintedError) : String :=
  he.e.desc ++ "\n" ++ he.hint.display

/-- `format_err_msg` applied to a `HintedError` through the blanket
`GiveupFormatError` impl (giveup.rs): its `Display` line(s) followed by a
newline, then the `Caused by:` lines of its source chain. -/
def HintedError.format_err_msg (he : HintedError) : String :=
  he.display ++ "\n" ++ optCausedBy he.source

/-- Rust's `Result`, the outcome type the trait methods act on. -/
inductive Res (T E : Type) where
  | ok (t : T)
  | err (e : E)
deriving DecidableEq

/-- `Giveup::hint` (giveup.rs): identity on `Ok`, wraps the error of an
`Err` in a `HintedError` carrying the hint. -/
def Res.hint {T : Type} : Res T Err → String → Res T HintedError
  | .ok t, _ => .ok t
  | .err e, h => .err (HintedError.from_hint e h)

/-- `Example::example` (hint.rs): sets the `example` field of the hint when
the outcome is an error, and leaves the outcome untouched otherwise.
Spelled `example_` because `example` is a Lean keyword. -/
def Res.example_ {T : Type} : Res T HintedError → String → Res T HintedError
  | .ok t, _ => .ok t
  | .err he, x => .err ⟨he.e, ⟨he.hint.hint, some x⟩⟩

/-- The `GiveupFormatError` trait (giveup.rs): any error the crate can
format. -/
class GiveupFormatError (E : Type) where
  format_err_msg : E → String

instance : GiveupFormatError Err :=
  ⟨format_err_msg⟩

instance : GiveupFormatError HintedError :=
  ⟨HintedError.format_err_msg⟩

/-- The observable outcome of `giveup`: either the success value is
returned, or the process exits carrying the text written to stderr and the
exit status. -/
inductive GiveupOutcome (T : Type) where
  | returned (t : T)
  | exited (stderrText : String) (code : Nat)
deriving DecidableEq

/-- `exit_gracefully` (giveup.rs): one `eprint!("{}: {}", msg.bold(), err_msg)`
followed by `std::process::exit(1)`.  `bold` is modelled as the identity on
text (uncolored output); no newline is appended after `err_msg`. -/
def exit_gracefully {T : Type} (msg err_msg : String) : GiveupOutcome T :=
  .exited (msg ++ ": " ++ err_msg) 1

/-- `Giveup::giveup` (giveup.rs): returns the success value, or formats the
error and exits gracefully with the given message. -/
def Res.giveup {T E : Type} [GiveupFormatError E] : Res T E → String → GiveupOutcome T
  | .ok t, _ => .returned t
  | .err e, msg => exit_gracefully msg (GiveupFormatError.format_err_msg e)

/-- `anyhow::Error::chain` for an error wrapped in `anyhow::Error`: the
error itself followed by its source chain. -/
def anyhowChain (e : Err) : List Err :=
  e :: e.causeChain

/-- The `for cause in cause_chain` loop of the `anyhow` impl of
`GiveupFormatError` (giveup.rs): one `"Caused by: {cause}\n"` line per
remaining chain element, appended in order. -/
def causedByConcat : List Err → String
  | [] => ""
  | c :: rest => "Caused by: " ++ c.desc ++ "\n" ++ causedByConcat rest

/-- `format_err_msg` of the `anyhow` impl (giveup.rs): `"{self}\n"` (the
outermost error's `Display`), then the chain with its first element (the
duplicate of the error itself) skipped, each as a `Caused by:` line. -/
def anyhow_format_err_msg (e : Err) : String :=
  e.desc ++ "\n" ++ causedByConcat ((anyhowChain e).drop 1)

/-- Concatenation of a list of lines, terminating each with `"\n"`.  A
string is "exactly these lines, each terminated by a newline" when it
equals `joinLines` of them and no line contains `'\n'`. -/
def joinLines : List String → String
  | [] => ""
  | l :: ls => l ++ "\n" ++ joinLines ls

/-- The string contains no newline character. -/
def noNL (s : String) : Prop := '\n' ∉ s.data

instance (s : String) : Decidable (noNL s) :=
  inferInstanceAs (Decidable ('\n' ∉ s.data))

/-- Whether a failure outcome already carries an example on its hint. -/
def exampleIsSet {T : Type} : Res T HintedError → Bool
  | .ok _ => false
  | .err he => he.hint.example_.isSome

/-- The error payload of an outcome, if any. -/
def errPayload {T : Type} : Res T HintedError → Option HintedError
  | .ok _ => none
  | .err he => some he

/-- The chain of errors visited by walking `source` links starting from an
optional first cause. -/
def chainFromOpt : Option Err → List Err
  | none => []
  | some c => c :: c.causeChain

/-- Error `E2` of the end-to-end scenario: "no space on device", no cause. -/
def E2 : Err := Err.base "no space on device"

/-- Error `E1` of the end-to-end scenario: "disk full", caused by `E2`. -/
def E1 : Err := Err.withSource "disk full" E2

/-- The loop text starting at a cause `c` is `c`'s own line followed by the
lines of `c`'s chain. -/
theorem causedByFrom_eq (s : Err) :
    causedByFrom s = "Caused by: " ++ s.desc ++ "\n" ++ causedByConcat s.causeChain := by
  induction s with
  | base d =>
      simp [causedByFrom, Err.desc, Err.causeChain, causedByConcat, String.append_empty]
  | withSource d s ih =>
      simp [causedByFrom, Err.desc, Err.causeChain, causedByConcat, ih,
        String.append_assoc]

/-- The loop of the plain `format_err_msg` and the loop of the `anyhow`
impl produce the same text for the same chain. -/
theorem optCausedBy_source_eq_concat (e : Err) :
    optCausedBy e.source = causedByConcat e.causeChain := by
  cases e with
  | base d => rfl
  | withSource d s =>
      simp [Err.source, Err.causeChain, optCausedBy, causedByConcat, causedByFrom_eq]

/-- The `Caused by:` loop text is the newline-joined list of `Caused by:`
lines. -/
theorem causedByConcat_eq_joinLines (l : List Err) :
    causedByConcat l = joinLines (l.map fun c => "Caused by: " ++ c.desc) := by
  induction l with
  | nil => rfl
  | cons c rest ih =>
      simp [causedByConcat, joinLines, ih, String.append_assoc]

/-- A concatenation has no newline iff neither part does. -/
theorem noNL_append (a b : String) : noNL (a ++ b) ↔ noNL a ∧ noNL b := by
  simp [noNL, String.data_append, not_or]

/-- The loop text is empty or ends with a newline. -/
theorem optCausedBy_trailing (o : Option Err) :
    optCausedBy o = "" ∨ ∃ p, optCausedBy o = p ++ "\n" := by
  cases o with
  | none => exact Or.inl rfl
  | some c =>
      refine Or.inr ?_
      induction c with
      | base d => exact ⟨"Caused by: " ++ d, by simp [optCausedBy, causedByFrom]⟩
      | withSource d s ih =>
          obtain ⟨p, hp⟩ := ih
          refine ⟨"Caused by: " ++ d ++ "\n" ++ p, ?_⟩
          simp only [optCausedBy] at hp
          simp [optCausedBy, causedByFrom, hp, String.append_assoc]

/-- Any string of the form `s ++ "\n" ++ optCausedBy o` ends with a
newline. -/
theorem append_optCausedBy_trailing (s : String) (o : Option Err) :
    ∃ p, s ++ "\n" ++ optCausedBy o = p ++ "\n" := by
  rcases optCausedBy_trailing o with h | ⟨p, hp⟩
  · exact ⟨s, by simp [h, String.append_empty]⟩
  · exact ⟨s ++ "\n" ++ p, by simp [hp, String.append_assoc]⟩

/-- A string ends in a given suffix string iff the suffix's character list
is a suffix of its character list. -/
theorem append_eq_iff_suffix (s t : String) :
    (∃ p, s = p ++ t) ↔ t.data <:+ s.data := by
  constructor
  · rintro ⟨p, rfl⟩
    exact ⟨p.data, (String.data_append p t).symm⟩
  · rintro ⟨l, hl⟩
    refine ⟨⟨l⟩, String.ext ?_⟩
    simpa [String.data_append] using hl.symm

/-- Claim C10: with the anyhow feature enabled, formatting an error wrapped
in an `anyhow::Error` produces exactly the same string as formatting the
raw error directly — the anyhow formatter skips the first (duplicate)
element of the chain, so the two code paths agree. -/
theorem anyhow_format_matches_plain_format (e : Err) :
    anyhow_format_err_msg e = format_err_msg e := by
  simpa [anyhow_format_err_msg, format_err_msg, anyhowChain]
    using congrArg (fun s => e.desc ++ "\n" ++ s) (optCausedBy_source_eq_concat e).symm

/-- Claim C3, counterexample: the `HintedError` wrapping `E1` does not have
`E1` as its immediate cause — its `source` is `E1`'s own source `E2`, so
cause-chain walking skips the wrapped error itself. -/
theorem hintedError_source_not_wrapped_error :
    (HintedError.from_hint E1 "Free up space").source ≠ some E1 ∧
    (HintedError.from_hint E1 "Free up space").source = some E2 := by
  constructor
  · decide
  · rfl

/-- Claim C3, amended: a `HintedError`'s `source` delegates to the wrapped
error's `source`, so walking the cause chain of a `HintedError` visits
exactly the wrapped error's causes (the wrapped error itself is not an
element of the chain; its description is surfaced by the `HintedError`'s
own `Display`). -/
theorem hintedError_cause_chain_delegates (e : Err) (h : String) :
    (HintedError.from_hint e h).source = e.source ∧
    chainFromOpt (HintedError.from_hint e h).source = e.causeChain := by
  refine ⟨rfl, ?_⟩
  cases e with
  | base d => rfl
  | withSource d s => rfl

/-- Claim C6: on a success outcome, `hint` and `example` are identities on
the contained value — the success value comes out unchanged, no
`HintedError` wrapping occurs, and `example` leaves the outcome entirely
unchanged. -/
theorem hint_example_identity_on_success (T : Type) (t : T) (h x : String) :
    Res.hint (Res.ok t) h = Res.ok t ∧
    Res.example_ (Res.ok t) x = Res.ok t := by
  exact ⟨rfl, rfl⟩

/-- Claim C9: on a failure outcome, `example` mutates only the `example`
field of the contained `Hint`: the wrapped error value and the hint text
are unchanged, and the example field becomes the given text. -/
theorem example_frame (T : Type) (he : HintedError) (x : String) :
    (errPayload (Res.example_ (T := T) (Res.err he) x)).map HintedError.e
        = some he.e ∧
    (errPayload (Res.example_ (T := T) (Res.err he) x)).map (fun k => k.hint.hint)
        = some he.hint.hint ∧
    (errPayload (Res.example_ (T := T) (Res.err he) x)).map (fun k => k.hint.example_)
        = some (some x) := by
  exact ⟨rfl, rfl, rfl⟩

/-- Claim C8: a hint's example field starts unset when `hint` creates the
`HintedError`, `example` only ever sets it to a value (never clears it),
it is untouched on success outcomes, and once set it stays set across the
only operation that writes to it. -/
theorem example_once_set_never_cleared (T : Type) :
    (∀ (e : Err) (h : String), (HintedError.from_hint e h).hint.example_ = none) ∧
    (∀ (t : T) (x : String), Res.example_ (Res.ok t) x = Res.ok t) ∧
    (∀ (he : HintedError) (x : String),
        Res.example_ (T := T) (Res.err he) x = Res.err ⟨he.e, ⟨he.hint.hint, some x⟩⟩) ∧
    (∀ (r : Res T HintedError) (x : String),
        exampleIsSet r ≤ exampleIsSet (Res.example_ r x)) := by
  refine ⟨fun e h => rfl, fun t x => rfl, fun he x => rfl, fun r x => ?_⟩
  cases r with
  | ok t => simp [Res.example_, exampleIsSet]
  | err he => simp [Res.example_, exampleIsSet]

/-- Claim C5: `giveup` returns the contained value on success (no exit, no
stderr write); on failure it performs the single stderr write
`"<message>: <formatted error body>"` with nothing appended after the body
(the body already ends in a newline) and exits with status 1, for both
formattable error types of the development. -/
theorem giveup_success_and_failure_behaviour (T : Type) (msg : String) :
    (∀ t : T, Res.giveup (E := Err) (Res.ok t) msg = GiveupOutcome.returned t) ∧
    (∀ t : T, Res.giveup (E := HintedError) (Res.ok t) msg = GiveupOutcome.returned t) ∧
    (∀ e : Err, Res.giveup (T := T) (Res.err e) msg
        = GiveupOutcome.exited (msg ++ ": " ++ format_err_msg e) 1) ∧
    (∀ he : HintedError, Res.giveup (T := T) (Res.err he) msg
        = GiveupOutcome.exited (msg ++ ": " ++ HintedError.format_err_msg he) 1) ∧
    (∀ e : Err, ∃ p, format_err_msg e = p ++ "\n") ∧
    (∀ he : HintedError, ∃ p, HintedError.format_err_msg he = p ++ "\n") := by
  refine ⟨fun t => rfl, fun t => rfl, fun e => rfl, fun he => rfl, fun e => ?_, fun he => ?_⟩
  · exact append_optCausedBy_trailing e.desc e.source
  · exact append_optCausedBy_trailing he.display he.source

/-- Claim C1, counterexample: in the end-to-end scenario the diagnostic
text is not the claimed string with the hint line after the `Caused by:`
line. -/
theorem giveup_end_to_end_not_hint_last :
    Res.giveup (T := Unit)
        (Res.example_ (Res.hint (Res.err E1) "Free up space") "rm largefile")
        "Write failed"
      ≠ GiveupOutcome.exited
          "Write failed: disk full\nCaused by: no space on device\nFree up space: `rm largefile`\n"
          1 := by
  decide

/-- Claim C1, amended: the end-to-end scenario writes exactly
`"Write failed: disk full\nFree up space: \x60rm largefile\x60\nCaused by: no space on device\n"`
to the diagnostic stream — the hint line comes immediately after the
description line, before the `Caused by:` line — and the process ends with
exit status 1. -/
theorem giveup_end_to_end :
    Res.giveup (T := Unit)
        (Res.example_ (Res.hint (Res.err E1) "Free up space") "rm largefile")
        "Write failed"
      = GiveupOutcome.exited
          "Write failed: disk full\nFree up space: `rm largefile`\nCaused by: no space on device\n"
          1 := by
  decide

/-- Claim C2, counterexample: for the error `E1`, which has a cause,
formatting the hinted error is not `format(E1)` with the hint line
appended at the end. -/
theorem hint_format_not_appended_at_end :
    (HintedError.from_hint E1 "Free up space").format_err_msg
      ≠ format_err_msg E1 ++ ("Free up space" ++ "\n") := by
  decide

/-- Claim C2, amended: formatting the error produced by attaching hint `h`
to `Failure(e)` yields `e`'s description line, then the line `h`, then the
`Caused by:` lines of `e`'s cause chain — i.e. the hint line is inserted
immediately after the first line of `format(e)`, before its `Caused by:`
lines; it equals `format(e)` with `h ++ "\n"` appended exactly when `e` has
no causes (and a hint with no example renders as the bare hint text). -/
theorem hint_line_inserted_after_description (e : Err) (h : String) :
    (HintedError.from_hint e h).format_err_msg
        = e.desc ++ "\n" ++ (h ++ "\n") ++ optCausedBy e.source ∧
    ∀ d : String, (HintedError.from_hint (Err.base d) h).format_err_msg
        = format_err_msg (Err.base d) ++ (h ++ "\n") := by
  constructor
  · simp [HintedError.format_err_msg, HintedError.display, HintedError.source,
      HintedError.from_hint, Hint.display, String.append_assoc]
  · intro d
    simp [HintedError.format_err_msg, HintedError.display, HintedError.source,
      HintedError.from_hint, Hint.display, format_err_msg, Err.desc, Err.source,
      optCausedBy, String.append_empty, String.append_assoc]

/-- Claim C7, counterexample: attaching hint "Free up space" and example
"rm largefile" to `Failure(E1)` (where `E1` has a cause) yields a rendering
that does not end with the line `"Free up space: \x60rm largefile\x60"` —
the final line is the `Caused by:` line, so the hint line is not the final
line of the rendering. -/
theorem example_line_not_final_for_caused_error :
    Res.example_ (T := Unit) (Res.hint (Res.err E1) "Free up space") "rm largefile"
        = Res.err ⟨E1, ⟨"Free up space", some "rm largefile"⟩⟩ ∧
    ¬ ∃ p, (⟨E1, ⟨"Free up space", some "rm largefile"⟩⟩ : HintedError).format_err_msg
        = p ++ ("Free up space: `rm largefile`" ++ "\n") := by
  refine ⟨rfl, ?_⟩
  rw [append_eq_iff_suffix]
  decide

/-- Claim C7, amended: attaching hint `h` then example `x` to `Failure(e)`
yields a rendering in which the line `"<h>: \x60<x>\x60"` appears
immediately after the description line, before any `Caused by:` lines;
it is the final line exactly when `e` has no causes.  Attaching a second
example overwrites the first: only the latest example text appears. -/
theorem hint_then_example_rendering (T : Type) (e : Err) (h x x1 : String) :
    Res.example_ (T := T) (Res.hint (Res.err e) h) x
        = Res.err ⟨e, ⟨h, some x⟩⟩ ∧
    (⟨e, ⟨h, some x⟩⟩ : HintedError).format_err_msg
        = e.desc ++ "\n" ++ (h ++ ": `" ++ x ++ "`" ++ "\n") ++ optCausedBy e.source ∧
    (∀ d : String, (⟨Err.base d, ⟨h, some x⟩⟩ : HintedError).format_err_msg
        = d ++ "\n" ++ (h ++ ": `" ++ x ++ "`") ++ "\n") ∧
    Res.example_ (T := T) (Res.example_ (Res.hint (Res.err e) h) x1) x
        = Res.example_ (Res.hint (Res.err e) h) x := by
  refine ⟨rfl, ?_, ?_, rfl⟩
  · simp [HintedError.format_err_msg, HintedError.display, HintedError.source,
      Hint.display, String.append_assoc]
  · intro d
    simp [HintedError.format_err_msg, HintedError.display, HintedError.source,
      Hint.display, Err.desc, Err.source, optCausedBy, String.append_empty,
      String.append_assoc]

/-- Claim C4: for an error whose descriptions are newline-free and whose
cause chain has length `n`, `format_err_msg` is exactly the `n + 1` lines
(each newline-terminated) consisting of the error's own description
followed by one `"Caused by: <cause description>"` line per cause, in
nearest-cause-first order; with zero causes the result is exactly
`"<description>\n"`. -/
theorem format_err_msg_line_structure (e : Err)
    (hd : noNL e.desc)
    (hc : ∀ c ∈ e.causeChain, noNL c.desc) :
    format_err_msg e
        = joinLines (e.desc :: e.causeChain.map (fun c => "Caused by: " ++ c.desc)) ∧
    (e.desc :: e.causeChain.map (fun c => "Caused by: " ++ c.desc)).length
        = e.causeChain.length + 1 ∧
    (∀ l ∈ e.desc :: e.causeChain.map (fun c => "Caused by: " ++ c.desc), noNL l) ∧
    (e.causeChain = [] → format_err_msg e = e.desc ++ "\n") := by
  refine ⟨?_, by simp, ?_, ?_⟩
  · simp [format_err_msg, optCausedBy_source_eq_concat, causedByConcat_eq_joinLines,
      joinLines]
  · intro l hl
    rcases List.mem_cons.mp hl with h0 | h1
    · exact h0 ▸ hd
    · obtain ⟨c, hcmem, rfl⟩ := List.mem_map.mp h1
      exact (noNL_append "Caused by: " c.desc).mpr ⟨by decide, hc c hcmem⟩
  · intro h0
    cases e with
    | base d =>
        simp [format_err_msg, Err.desc, Err.source, optCausedBy, String.append_empty]
    | withSource d s => simp [Err.causeChain] at h0

/-- Claim C4, witness: the line structure of `format_err_msg` at the
concrete error "disk full" caused by "no space on device". -/
theorem format_err_msg_line_structure_witness :
    format_err_msg E1
        = joinLines (E1.desc :: E1.causeChain.map (fun c => "Caused by: " ++ c.desc)) ∧
    (E1.desc :: E1.causeChain.map (fun c => "Caused by: " ++ c.desc)).length
        = E1.causeChain.length + 1 ∧
    (∀ l ∈ E1.desc :: E1.causeChain.map (fun c => "Caused by: " ++ c.desc), noNL l) ∧
    (E1.causeChain = [] → format_err_msg E1 = E1.desc ++ "\n") :=
  format_err_msg_line_structure E1 (by decide) (by decide)
